import Mathlib

/-!
Verification of the frame value types of `python-canlin` (`src/message.py`):
the CAN `Message` class (construction, optional validation, tolerance-based
value equality), the LIN `LinMessage` class (dlc quantization ladder and
zero padding, positional equality ignoring the timestamp) and the layout of
the `LinMessageInfo` ctypes record.

Python floats are modelled as extended rationals (`PFloat`): a finite
rational, the two infinities, or NaN, with IEEE-754 comparison and
subtraction semantics for the operations the code uses.  Python byte
sequences (`bytearray`) are lists of naturals, Python `int` is `ℤ`.
-/

/-- Model of a Python float for the operations `message.py` performs on
timestamps: sign test, `math.isinf`, `math.isnan`, subtraction, `abs`,
and `<=` comparison, all with IEEE-754 semantics (finite values exact). -/
inductive PFloat
  | finite (q : ℚ)
  | inf
  | neginf
  | nan
deriving DecidableEq, Repr

namespace PFloat

/-- IEEE test `x < 0.0` (false on NaN). -/
def isNeg : PFloat → Bool
  | finite q => decide (q < 0)
  | inf => false
  | neginf => true
  | nan => false

/-- `math.isinf` (true on both infinities). -/
def isinf : PFloat → Bool
  | inf => true
  | neginf => true
  | _ => false

/-- `math.isnan`. -/
def isnan : PFloat → Bool
  | nan => true
  | _ => false

/-- IEEE subtraction (finite arithmetic exact; `inf - inf = NaN` etc.). -/
def sub : PFloat → PFloat → PFloat
  | nan, _ => nan
  | _, nan => nan
  | inf, inf => nan
  | inf, neginf => inf
  | inf, finite _ => inf
  | neginf, neginf => nan
  | neginf, inf => neginf
  | neginf, finite _ => neginf
  | finite _, inf => neginf
  | finite _, neginf => inf
  | finite q, finite r => finite (q - r)

/-- IEEE absolute value. -/
def fabs : PFloat → PFloat
  | nan => nan
  | inf => inf
  | neginf => inf
  | finite q => finite |q|

/-- IEEE comparison `x <= y` (false whenever either side is NaN). -/
def ble : PFloat → PFloat → Bool
  | nan, _ => false
  | _, nan => false
  | neginf, _ => true
  | finite _, inf => true
  | finite q, finite r => decide (q ≤ r)
  | finite _, neginf => false
  | inf, inf => true
  | inf, finite _ => false
  | inf, neginf => false

end PFloat

/-- A CAN channel is an integer or a string (`typechecking.Channel`). -/
abbrev Channel := ℤ ⊕ String

/-- The field set of `canlin.Message` (the `__slots__` of the class, minus
the `__weakref__` support slot). -/
structure Message where
  timestamp : PFloat
  id : ℤ
  is_extended_id : Bool
  is_remote_frame : Bool
  is_error_frame : Bool
  channel : Option Channel
  dlc : ℤ
  data : List ℕ
  is_fd : Bool
  is_rx : Bool
  bitrate_switch : Bool
  error_state_indicator : Bool
deriving DecidableEq, Repr

namespace Message

/-- The field assignments of `Message.__init__` (without the `check` step):
`data` is forced empty when omitted or when `is_remote_frame` is set, and
`dlc` defaults to the length of the stored payload. -/
def mkFrom (timestamp : PFloat) (id : ℤ)
    (is_extended_id is_remote_frame is_error_frame : Bool)
    (channel : Option Channel) (dlc : Option ℤ) (data : Option (List ℕ))
    (is_fd is_rx bitrate_switch error_state_indicator : Bool) : Message :=
  let d : List ℕ :=
    if data.isNone || is_remote_frame then [] else data.getD []
  let dl : ℤ :=
    match dlc with
    | none => (d.length : ℤ)
    | some x => x
  ⟨timestamp, id, is_extended_id, is_remote_frame, is_error_frame, channel,
    dl, d, is_fd, is_rx, bitrate_switch, error_state_indicator⟩

/-- Run an ordered sequence of `(condition, message)` checks: the first
check whose condition holds raises its message, otherwise the whole
sequence passes.  This models a straight-line Python block of
`if cond: raise ValueError(msg)` statements. -/
def runChecks : List (Bool × String) → Except String Unit
  | [] => .ok ()
  | (c, msg) :: rest => if c then .error msg else runChecks rest

/-- The checks of `Message._check` in source order.  The source's nested
`if c: if a: raise; if b: raise` and `if/elif` blocks are flattened into
an equivalent ordered list of guarded raises, with each raise guarded by
the conjunction of its enclosing conditions. -/
def checks (m : Message) : List (Bool × String) :=
  [(m.timestamp.isNeg, "the timestamp may not be negative"),
   (m.timestamp.isinf, "the timestamp may not be infinite"),
   (m.timestamp.isnan, "the timestamp may not be NaN"),
   (m.is_remote_frame && m.is_error_frame,
     "a message cannot be a remote and an error frame at the sane time"),
   (m.is_remote_frame && m.is_fd, "CAN FD does not support remote frames"),
   (decide (m.id < 0), "arbitration IDs may not be negative"),
   (m.is_extended_id && decide (0x20000000 ≤ m.id),
     "Extended arbitration IDs must be less than 2**29"),
   (!m.is_extended_id && decide (0x800 ≤ m.id),
     "Normal arbitration IDs must be less than 2**11"),
   (decide (m.dlc < 0), "DLC may not be negative"),
   (m.is_fd && decide (64 < m.dlc), "DLC should be <= 64 for CAN FD frames"),
   (!m.is_fd && decide (8 < m.dlc), "DLC should be <= 8 for normal CAN frames"),
   (m.is_remote_frame && decide (m.data ≠ []),
     "remote frames may not carry any data"),
   (!m.is_remote_frame && decide (m.dlc ≠ (m.data.length : ℤ)),
     "the DLC and the length of the data must match up for non remote frames"),
   (!m.is_fd && m.bitrate_switch,
     "bitrate switch is only allowed for CAN FD frames"),
   (!m.is_fd && m.error_state_indicator,
     "error state indicator is only allowed for CAN FD frames")]

/-- `Message._check`: raise (return) the first violated rule in source
order, succeed when every rule holds. -/
def checkValid (m : Message) : Except String Unit :=
  runChecks m.checks

/-- Spec-side predicate: the disjunction of the invariants listed in §3 of
the spec (timestamp negative, infinite or NaN; remote and error both set;
remote with FD; id negative or out of the identifier-space bound; dlc
negative; dlc over the classic/FD limit; remote frame with payload;
non-remote frame with `dlc ≠ len(data)`; BRS/ESI without FD). -/
def violatesInvariants (m : Message) : Bool :=
  m.timestamp.isNeg || m.timestamp.isinf || m.timestamp.isnan
  || (m.is_remote_frame && m.is_error_frame)
  || (m.is_remote_frame && m.is_fd)
  || decide (m.id < 0)
  || (m.is_extended_id && decide (0x20000000 ≤ m.id))
  || (!m.is_extended_id && decide (0x800 ≤ m.id))
  || decide (m.dlc < 0)
  || (m.is_fd && decide (64 < m.dlc))
  || (!m.is_fd && decide (8 < m.dlc))
  || (m.is_remote_frame && decide (m.data ≠ []))
  || (!m.is_remote_frame && decide (m.dlc ≠ (m.data.length : ℤ)))
  || (!m.is_fd && (m.bitrate_switch || m.error_state_indicator))

/-- The default of the `timestamp_delta` parameter of `Message.equals`
(`1.0e-6` seconds). -/
def defaultTimestampDelta : Option PFloat := some (.finite (1 / 1000000))

/-- The value-equality part of `Message.equals` (everything after the
`self is other` identity shortcut), with the conjuncts in source order:
timestamp within `timestamp_delta` unless that is `None`, direction unless
`check_direction` is unset, then id, extended flag, dlc, data, remote and
error flags, channel unless `check_channel` is unset, FD flag, bitrate
switch and error state indicator. -/
def equalsVal (self other : Message) (timestamp_delta : Option PFloat)
    (check_channel check_direction : Bool) : Bool :=
  (match timestamp_delta with
    | none => true
    | some δ => PFloat.ble ((self.timestamp.sub other.timestamp).fabs) δ)
  && (self.is_rx == other.is_rx || !check_direction)
  && (self.id == other.id)
  && (self.is_extended_id == other.is_extended_id)
  && (self.dlc == other.dlc)
  && (self.data == other.data)
  && (self.is_remote_frame == other.is_remote_frame)
  && (self.is_error_frame == other.is_error_frame)
  && (decide (self.channel = other.channel) || !check_channel)
  && (self.is_fd == other.is_fd)
  && (self.bitrate_switch == other.bitrate_switch)
  && (self.error_state_indicator == other.error_state_indicator)

/-- `Message.equals`: Python's `self is other` identity test is not
expressible on pure values, so it is passed in as the `sameInstance`
flag; the source returns `self is other or (value comparison)`. -/
def equals (sameInstance : Bool) (self other : Message)
    (timestamp_delta : Option PFloat)
    (check_channel check_direction : Bool) : Bool :=
  sameInstance
    || equalsVal self other timestamp_delta check_channel check_direction

/-- Python's default `==` on `Message` (no `__eq__` is defined, so CPython
compares object identity).  Instances are modelled as a reference token
paired with the field value; default equality looks only at the token. -/
def refEq (x y : ℕ × Message) : Bool :=
  x.1 == y.1

/-- `Message.__len__` returns `self.dlc` (not the payload length). -/
def len (m : Message) : ℤ :=
  m.dlc

/-- `Message.__init__`: build the fields, then run `_check` only when the
`check` flag is set; a `ValueError` surfaces as `Except.error`. -/
def init (timestamp : PFloat) (id : ℤ)
    (is_extended_id is_remote_frame is_error_frame : Bool)
    (channel : Option Channel) (dlc : Option ℤ) (data : Option (List ℕ))
    (is_fd is_rx bitrate_switch error_state_indicator : Bool)
    (check : Bool) : Except String Message :=
  let m := mkFrom timestamp id is_extended_id is_remote_frame is_error_frame
    channel dlc data is_fd is_rx bitrate_switch error_state_indicator
  if check then
    match m.checkValid with
    | .error e => .error e
    | .ok _ => .ok m
  else .ok m

end Message

/-- The field set of `canlin.LinMessage`, in the order of its `__slots__`
`(id, data, dlc, flags, crc, info, timestamp)`.  The `info` slot holds a
`LinMessageInfo` ctypes structure; ctypes structures define no `__eq__`,
so Python compares them by object identity, which is modelled by an
opaque reference token (`Option ℕ`, `none` for Python `None`). -/
structure LinMessage where
  id : ℤ
  data : List ℕ
  dlc : ℤ
  flags : ℤ
  crc : Option ℤ
  info : Option ℕ
  timestamp : Option PFloat
deriving DecidableEq, Repr

namespace LinMessage

/-- The dlc computation of `LinMessage.__init__` when `dlc` is not
supplied: round `len(data)` up through the chain of `elif` bounds
8, 12, 16, 20, 24, 32, 48, else 64. -/
def roundDlc (n : ℕ) : ℕ :=
  if n ≤ 8 then n
  else if n ≤ 12 then 12
  else if n ≤ 16 then 16
  else if n ≤ 20 then 20
  else if n ≤ 24 then 24
  else if n ≤ 32 then 32
  else if n ≤ 48 then 48
  else 64

/-- Spec-side list: the quantization ladder {0..8 exact, 12, 16, 20, 24,
32, 48, 64} of §3 of the spec. -/
def ladder : List ℕ :=
  [0, 1, 2, 3, 4, 5, 6, 7, 8, 12, 16, 20, 24, 32, 48, 64]

/-- `LinMessage.__init__`: with `dlc` omitted, compute it from the payload
length and zero-pad the payload when the computed dlc exceeds it; with an
explicit `dlc ≤ 8`, extend the payload by `[0] * (dlc - len(data))`
(which in Python adds nothing when that count is negative); with an
explicit `dlc > 8`, store the payload unchanged. -/
def init (id : ℤ) (data : List ℕ) (dlc : Option ℤ) (flags : ℤ)
    (timestamp : Option PFloat) (crc : Option ℤ)
    (info : Option ℕ) : LinMessage :=
  match dlc with
  | none =>
      let d := roundDlc data.length
      let data2 :=
        if data.length < d then data ++ List.replicate (d - data.length) 0
        else data
      ⟨id, data2, (d : ℤ), flags, crc, info, timestamp⟩
  | some d =>
      let data2 :=
        if d ≤ 8 then data ++ List.replicate ((d - (data.length : ℤ)).toNat) 0
        else data
      ⟨id, data2, d, flags, crc, info, timestamp⟩

/-- `LinMessage.__eq__` (for a `LinMessage` operand): compare every slot
of `_eq_slots = __slots__[:-1]`, i.e. all fields except the trailing
`timestamp`, in declared order. -/
def beq (x y : LinMessage) : Bool :=
  decide (x.id = y.id) && decide (x.data = y.data)
    && decide (x.dlc = y.dlc) && decide (x.flags = y.flags)
    && decide (x.crc = y.crc) && decide (x.info = y.info)

end LinMessage

/-- The ctypes member types occurring in `LinMessageInfo._fields_`:
`c_ulong`, `c_ubyte`, `c_ushort` and fixed-size arrays. -/
inductive CTy
  | ulong
  | ubyte
  | ushort
  | arr (t : CTy) (n : ℕ)
deriving DecidableEq, Repr

/-- Bit width of a ctypes member on an ABI where C `unsigned long` is
`ulongBits` bits wide: `ctypes.c_ulong` follows the platform's C
`unsigned long` (32 bits on ILP32 and LLP64 ABIs such as the Kvaser
driver's Windows ABI, 64 bits on LP64 ABIs such as x86-64 Linux), while
`c_ubyte` and `c_ushort` are always 8 and 16 bits. -/
def CTy.width (ulongBits : ℕ) : CTy → ℕ
  | ulong => ulongBits
  | ubyte => 8
  | ushort => 16
  | arr t n => n * t.width ulongBits

/-- `LinMessageInfo._fields_`: the declared member names and ctypes, in
declaration order (the `z` member is the unused alignment dummy). -/
def LinMessageInfoFields : List (String × CTy) :=
  [("timestamp", .ulong),
   ("synchBreakLength", .ulong),
   ("frameLength", .ulong),
   ("bitrate", .ulong),
   ("checkSum", .ubyte),
   ("idPar", .ubyte),
   ("z", .ushort),
   ("synchEdgeTime", .arr .ulong 4),
   ("byteTime", .arr .ulong 8)]

theorem Message.runChecks_ok_iff (l : List (Bool × String)) :
    Message.runChecks l = .ok () ↔ (l.any Prod.fst) = false := by
  induction l with
  | nil => simp [Message.runChecks]
  | cons p rest ih =>
      obtain ⟨c, msg⟩ := p
      by_cases hc : c = true <;> simp [Message.runChecks, hc, ih]

theorem Message.checkValid_ok_iff (m : Message) :
    m.checkValid = .ok () ↔ m.violatesInvariants = false := by
  rw [Message.checkValid, Message.runChecks_ok_iff]
  unfold Message.checks Message.violatesInvariants
  simp only [List.any_cons, List.any_nil, Bool.or_false, Bool.or_assoc,
    Bool.and_or_distrib_left]

/-- C1: `Message.__init__` raises a `ValueError` if and only if the
`check` flag is set and the constructed field values violate at least one
of the invariants of §3 (timestamp negative, infinite or NaN; remote and
error flags both set; remote frame with FD; id negative or out of the
identifier-space bound; dlc negative; dlc over the classic/FD limit;
remote frame with payload; non-remote frame with `dlc ≠ len(data)`;
BRS/ESI without FD); with `check` unset, construction never raises a
`ValueError`, for every combination of field values. -/
theorem frame_check_raises_iff (ts : PFloat) (id : ℤ)
    (eid rem errf : Bool) (ch : Option Channel) (dlc : Option ℤ)
    (data : Option (List ℕ)) (fd rx brs esi check : Bool) :
    (∃ e, Message.init ts id eid rem errf ch dlc data fd rx brs esi check
        = .error e)
      ↔ check = true ∧
        (Message.mkFrom ts id eid rem errf ch dlc data fd rx brs
          esi).violatesInvariants = true := by
  simp only [Message.init]
  cases check with
  | false => simp
  | true =>
    simp only [if_true, true_and]
    cases h : (Message.mkFrom ts id eid rem errf ch dlc data fd rx brs
        esi).checkValid with
    | error e =>
      have hv : (Message.mkFrom ts id eid rem errf ch dlc data fd rx brs
          esi).violatesInvariants = true := by
        cases hv : (Message.mkFrom ts id eid rem errf ch dlc data fd rx brs
            esi).violatesInvariants
        · have := (Message.checkValid_ok_iff _).mpr hv
          rw [h] at this
          cases this
        · rfl
      simp [h, hv]
    | ok u =>
      cases u
      have hv := (Message.checkValid_ok_iff _).mp h
      simp [h, hv]

/-- C2: `Message.equals x y timestamp_delta check_channel check_direction`
returns true if and only if the operands are the same instance, or all of
id, extended flag, dlc, data, remote, error, FD, bitrate-switch and
error-state-indicator flags match exactly, channel matches unless
`check_channel` is false, direction matches unless `check_direction` is
false, and `|x.timestamp - y.timestamp| <= timestamp_delta` unless the
delta is `None`; further the default delta is `1.0e-6`, so two frames
identical except for timestamps differing by `2e-6` are not equal with
the default delta but are equal with delta `1e-5`. -/
theorem frame_equals_iff :
    (∀ (same : Bool) (x y : Message) (δ : Option PFloat) (cc cd : Bool),
      Message.equals same x y δ cc cd = true ↔
        (same = true ∨
          (x.id = y.id ∧ x.is_extended_id = y.is_extended_id
            ∧ x.dlc = y.dlc ∧ x.data = y.data
            ∧ x.is_remote_frame = y.is_remote_frame
            ∧ x.is_error_frame = y.is_error_frame ∧ x.is_fd = y.is_fd
            ∧ x.bitrate_switch = y.bitrate_switch
            ∧ x.error_state_indicator = y.error_state_indicator
            ∧ (cc = true → x.channel = y.channel)
            ∧ (cd = true → x.is_rx = y.is_rx)
            ∧ ∀ d, δ = some d →
                PFloat.ble ((x.timestamp.sub y.timestamp).fabs) d = true)))
    ∧ Message.defaultTimestampDelta = some (.finite (1 / 1000000))
    ∧ (Message.equals false
        ⟨.finite 0, 0, true, false, false, none, 0, [], false, true, false, false⟩
        ⟨.finite (2 / 1000000), 0, true, false, false, none, 0, [], false, true, false, false⟩
        Message.defaultTimestampDelta true true = false
      ∧ Message.equals false
        ⟨.finite 0, 0, true, false, false, none, 0, [], false, true, false, false⟩
        ⟨.finite (2 / 1000000), 0, true, false, false, none, 0, [], false, true, false, false⟩
        (some (.finite (1 / 100000))) true true = true) := by
  have habs : |(1 : ℚ) / 500000| = 1 / 500000 := abs_of_nonneg (by norm_num)
  refine ⟨?_, rfl,
    by norm_num [Message.equals, Message.equalsVal,
      Message.defaultTimestampDelta, PFloat.sub, PFloat.fabs, PFloat.ble,
      habs],
    by norm_num [Message.equals, Message.equalsVal, PFloat.sub,
      PFloat.fabs, PFloat.ble, habs]⟩
  intro same x y δ cc cd
  cases δ <;> cases cc <;> cases cd <;> cases same <;>
    simp [Message.equals, Message.equalsVal] <;> tauto

/-- C7: default comparison of `Message` values is identity-only (the class
defines no `__eq__`, so CPython compares object identity): two distinct
instances with all fields identical are not equal under default
comparison, while the explicit `equals` operation (here with timestamp
comparison disabled) does report them value-equal. -/
theorem frame_default_eq_is_identity (r1 r2 : ℕ) (m : Message)
    (h : r1 ≠ r2) :
    Message.refEq (r1, m) (r2, m) = false
      ∧ Message.equals false m m none true true = true := by
  constructor
  · simp [Message.refEq, h]
  · simp [Message.equals, Message.equalsVal]

theorem frame_default_eq_is_identity_witness :
    Message.refEq
        (0, ⟨.finite 0, 5, true, false, false, none, 1, [7], false, true, false, false⟩)
        (1, ⟨.finite 0, 5, true, false, false, none, 1, [7], false, true, false, false⟩) = false
      ∧ Message.equals false
        ⟨.finite 0, 5, true, false, false, none, 1, [7], false, true, false, false⟩
        ⟨.finite 0, 5, true, false, false, none, 1, [7], false, true, false, false⟩
        none true true = true :=
  frame_default_eq_is_identity 0 1
    ⟨.finite 0, 5, true, false, false, none, 1, [7], false, true, false, false⟩
    (by decide)

/-- C8: in `Message.__init__`, if `data` is omitted or `is_remote_frame`
is true the stored payload is empty regardless of any supplied data, and
if `dlc` is omitted the stored dlc equals the length of the stored
payload (hence 0 for remote frames). -/
theorem frame_init_forces_data_and_dlc (ts : PFloat) (id : ℤ)
    (eid rem errf : Bool) (ch : Option Channel) (dlc : Option ℤ)
    (data : Option (List ℕ)) (fd rx brs esi : Bool) :
    ((data = none ∨ rem = true) →
      (Message.mkFrom ts id eid rem errf ch dlc data fd rx brs esi).data = [])
    ∧ (dlc = none →
      (Message.mkFrom ts id eid rem errf ch dlc data fd rx brs esi).dlc
        = ((Message.mkFrom ts id eid rem errf ch dlc data fd rx brs
            esi).data.length : ℤ))
    ∧ (dlc = none → rem = true →
      (Message.mkFrom ts id eid rem errf ch dlc data fd rx brs esi).dlc = 0) := by
  cases data <;> cases rem <;> cases dlc <;>
    simp [Message.mkFrom]

theorem frame_init_forces_data_and_dlc_witness :
    (Message.mkFrom (.finite 0) 3 true true false none none (some [1, 2])
        false true false false).data = []
    ∧ (Message.mkFrom (.finite 0) 3 true true false none none (some [1, 2])
        false true false false).dlc = 0 :=
  ⟨(frame_init_forces_data_and_dlc (.finite 0) 3 true true false none none
      (some [1, 2]) false true false false).1 (Or.inr rfl),
   (frame_init_forces_data_and_dlc (.finite 0) 3 true true false none none
      (some [1, 2]) false true false false).2.2 rfl rfl⟩

/-- C9: `Message.__len__` returns `self.dlc`, not the payload length; in
particular a remote frame built with a nonzero explicit dlc has nonzero
length even though its payload is empty. -/
theorem frame_len_returns_dlc :
    (∀ m : Message, Message.len m = m.dlc)
    ∧ ∀ (ts : PFloat) (id : ℤ) (eid errf : Bool) (ch : Option Channel)
        (d : ℤ) (data : List ℕ) (fd rx brs esi : Bool), d ≠ 0 →
        Message.len (Message.mkFrom ts id eid true errf ch (some d)
            (some data) fd rx brs esi) ≠ 0
        ∧ (Message.mkFrom ts id eid true errf ch (some d) (some data)
            fd rx brs esi).data = [] := by
  refine ⟨fun m => rfl, ?_⟩
  intro ts id eid errf ch d data fd rx brs esi hd
  exact ⟨by simpa [Message.len, Message.mkFrom] using hd,
    by simp [Message.mkFrom]⟩

theorem frame_len_returns_dlc_witness :
    Message.len (Message.mkFrom (.finite 0) 3 true true false none (some 4)
        (some []) false true false false) ≠ 0
    ∧ (Message.mkFrom (.finite 0) 3 true true false none (some 4)
        (some []) false true false false).data = [] :=
  frame_len_returns_dlc.2 (.finite 0) 3 true false none 4 [] false true
    false false (by decide)

theorem LinMessage.roundDlc_spec :
    ∀ n < 65, LinMessage.roundDlc n ∈ LinMessage.ladder
      ∧ n ≤ LinMessage.roundDlc n
      ∧ ∀ v ∈ LinMessage.ladder, n ≤ v → LinMessage.roundDlc n ≤ v := by
  decide

/-- C4: for a `LinMessage` built without an explicit dlc from a payload of
length at most 64, the computed dlc is the payload length rounded up to
the nearest value of the ladder {0..8 exact, 12, 16, 20, 24, 32, 48, 64},
and the stored payload is the input zero-padded on the right to exactly
dlc bytes; in particular `data = [1..9]` yields `dlc = 12` and payload
`[1,2,3,4,5,6,7,8,9,0,0,0]`. -/
theorem lin_dlc_ladder_padding (id : ℤ) (data : List ℕ) (flags : ℤ)
    (ts : Option PFloat) (crc : Option ℤ) (info : Option ℕ)
    (h : data.length ≤ 64) :
    (LinMessage.init id data none flags ts crc info).dlc
        = (LinMessage.roundDlc data.length : ℤ)
    ∧ LinMessage.roundDlc data.length ∈ LinMessage.ladder
    ∧ data.length ≤ LinMessage.roundDlc data.length
    ∧ (∀ v ∈ LinMessage.ladder, data.length ≤ v →
        LinMessage.roundDlc data.length ≤ v)
    ∧ (LinMessage.init id data none flags ts crc info).data
        = data ++ List.replicate
            (LinMessage.roundDlc data.length - data.length) 0
    ∧ (LinMessage.init id data none flags ts crc info).data.length
        = LinMessage.roundDlc data.length
    ∧ (LinMessage.init 1 [1, 2, 3, 4, 5, 6, 7, 8, 9] none 0 none none
        none).dlc = 12
    ∧ (LinMessage.init 1 [1, 2, 3, 4, 5, 6, 7, 8, 9] none 0 none none
        none).data = [1, 2, 3, 4, 5, 6, 7, 8, 9, 0, 0, 0] := by
  obtain ⟨h1, h2, h3⟩ := LinMessage.roundDlc_spec data.length (by omega)
  have hdata : (LinMessage.init id data none flags ts crc info).data
      = data ++ List.replicate
          (LinMessage.roundDlc data.length - data.length) 0 := by
    by_cases hlt : data.length < LinMessage.roundDlc data.length
    · simp [LinMessage.init, hlt]
    · have he : LinMessage.roundDlc data.length - data.length = 0 := by omega
      simp [LinMessage.init, hlt, he]
  refine ⟨rfl, h1, h2, h3, hdata, ?_, by decide, by decide⟩
  rw [hdata]
  simp
  omega

theorem lin_dlc_ladder_padding_witness :
    (LinMessage.init 1 [1, 2, 3, 4, 5, 6, 7, 8, 9] none 0 none none
        none).dlc = 12
    ∧ (LinMessage.init 1 [1, 2, 3, 4, 5, 6, 7, 8, 9] none 0 none none
        none).data = [1, 2, 3, 4, 5, 6, 7, 8, 9, 0, 0, 0] :=
  ⟨(lin_dlc_ladder_padding 1 [1, 2, 3, 4, 5, 6, 7, 8, 9] 0 none none none
      (by decide)).2.2.2.2.2.2.1,
   (lin_dlc_ladder_padding 1 [1, 2, 3, 4, 5, 6, 7, 8, 9] 0 none none none
      (by decide)).2.2.2.2.2.2.2⟩

/-- C3 counterexample: with an explicit `dlc = 2` and a 3-byte payload the
stored payload stays `[1,2,3]` (Python extends by `[0] * (2 - 3) = []`),
so its length is 3, not the supplied dlc, refuting the claim that an
explicit `dlc ≤ 8` always leaves `len(data) == dlc`. -/
theorem lin_explicit_dlc_pad_cex :
    (LinMessage.init 0 [1, 2, 3] (some 2) 0 none none none).dlc = 2
    ∧ (LinMessage.init 0 [1, 2, 3] (some 2) 0 none none none).data
        = [1, 2, 3]
    ∧ ¬ ((LinMessage.init 0 [1, 2, 3] (some 2) 0 none none
        none).data.length = 2) := by
  decide

/-- C3 (amended): for a `LinMessage` built with an explicitly supplied
dlc: if `dlc ≤ 8` the stored payload is the input extended by
`[0] * (dlc - len(data))` zero bytes — so it has length
`max(dlc, len(data))`, which is exactly `dlc` when the input is not
longer than `dlc`, and is the unchanged input otherwise; if `dlc > 8` no
padding is applied and the stored payload equals the input. -/
theorem lin_explicit_dlc_padding (id : ℤ) (data : List ℕ) (d : ℤ)
    (flags : ℤ) (ts : Option PFloat) (crc : Option ℤ) (info : Option ℕ) :
    (LinMessage.init id data (some d) flags ts crc info).dlc = d
    ∧ (d ≤ 8 →
        (LinMessage.init id data (some d) flags ts crc info).data
          = data ++ List.replicate ((d - (data.length : ℤ)).toNat) 0
        ∧ ((LinMessage.init id data (some d) flags ts crc
            info).data.length : ℤ) = max d (data.length : ℤ))
    ∧ (8 < d →
        (LinMessage.init id data (some d) flags ts crc info).data = data) := by
  refine ⟨rfl, ?_, ?_⟩
  · intro hd
    refine ⟨by simp [LinMessage.init, hd], ?_⟩
    simp [LinMessage.init, hd]
    omega
  · intro hd
    simp [LinMessage.init, not_le.mpr hd]

theorem lin_explicit_dlc_padding_witness :
    (LinMessage.init 0 [1, 2] (some 5) 0 none none none).data
      = [1, 2] ++ List.replicate
          (((5 : ℤ) - ((([1, 2] : List ℕ).length : ℤ))).toNat) 0 :=
  ((lin_explicit_dlc_padding 0 [1, 2] 5 0 none none none).2.1
    (by decide)).1

/-- C10: `LinMessage` construction never truncates the payload: for every
input byte sequence and every dlc argument the supplied bytes are a
prefix of the stored data and the stored data is at least as long; in
particular an explicit `dlc ≤ 8` smaller than the input length leaves the
payload at its original length, with `len(data) > dlc`. -/
theorem lin_init_never_truncates (id : ℤ) (data : List ℕ)
    (dlc : Option ℤ) (flags : ℤ) (ts : Option PFloat) (crc : Option ℤ)
    (info : Option ℕ) :
    (LinMessage.init id data dlc flags ts crc info).data.take data.length
        = data
    ∧ data.length ≤ (LinMessage.init id data dlc flags ts crc
        info).data.length
    ∧ (∀ d, dlc = some d → d ≤ 8 → d < (data.length : ℤ) →
        (LinMessage.init id data dlc flags ts crc info).data = data
        ∧ d < ((LinMessage.init id data dlc flags ts crc
            info).data.length : ℤ)) := by
  have hsplit : ∃ k, (LinMessage.init id data dlc flags ts crc info).data
      = data ++ List.replicate k 0 := by
    cases dlc with
    | none =>
        by_cases hlt : data.length < LinMessage.roundDlc data.length
        · exact ⟨LinMessage.roundDlc data.length - data.length,
            by simp [LinMessage.init, hlt]⟩
        · exact ⟨0, by simp [LinMessage.init, hlt]⟩
    | some d =>
        by_cases hd : d ≤ 8
        · exact ⟨(d - (data.length : ℤ)).toNat,
            by simp [LinMessage.init, hd]⟩
        · exact ⟨0, by simp [LinMessage.init, hd]⟩
  obtain ⟨k, hk⟩ := hsplit
  refine ⟨?_, ?_, ?_⟩
  · rw [hk, List.take_left]
  · rw [hk]
    simp
  · intro d hdlc hd8 hdlen
    subst hdlc
    have hz : ((d - (data.length : ℤ)).toNat) = 0 := by omega
    refine ⟨by simp [LinMessage.init, hd8, hz], ?_⟩
    simp [LinMessage.init, hd8, hz]
    omega

theorem lin_init_never_truncates_witness :
    (LinMessage.init 0 [1, 2, 3] (some 2) 0 none none none).data
        = [1, 2, 3]
    ∧ (2 : ℤ) < ((LinMessage.init 0 [1, 2, 3] (some 2) 0 none none
        none).data.length : ℤ) :=
  (lin_init_never_truncates 0 [1, 2, 3] (some 2) 0 none none none).2.2 2
    rfl (by decide) (by decide)

/-- C6: `LinMessage.__eq__` compares exactly the fields preceding
`timestamp` in the declared slot order — id, data, dlc, flags, crc, info
— each for exact equality (no tolerance), and ignores `timestamp`
entirely. -/
theorem lin_eq_ignores_timestamp :
    (∀ x y : LinMessage, LinMessage.beq x y = true ↔
      (x.id = y.id ∧ x.data = y.data ∧ x.dlc = y.dlc ∧ x.flags = y.flags
        ∧ x.crc = y.crc ∧ x.info = y.info))
    ∧ ∀ (x : LinMessage) (t : Option PFloat),
        LinMessage.beq x ⟨x.id, x.data, x.dlc, x.flags, x.crc, x.info, t⟩
          = true := by
  constructor
  · intro x y
    simp [LinMessage.beq, and_assoc]
  · intro x t
    simp [LinMessage.beq]

/-- C5 counterexample: the claim fixes every multi-byte member of
`LinMessageInfo` at 32 bits, but the source declares them as
`ctypes.c_ulong`, which follows the platform's C `unsigned long`; on an
LP64 ABI (`unsigned long` = 64 bits, e.g. x86-64 Linux) the declared
member widths are not the claimed 32 bits. -/
theorem lin_info_layout_cex :
    ¬ (LinMessageInfoFields.map (fun p => CTy.width 64 p.2)
        = [32, 32, 32, 32, 8, 8, 16, 4 * 32, 8 * 32]) := by
  decide

/-- C5 (amended): `LinMessageInfo._fields_` declares, in this exact
order, `timestamp`, `synchBreakLength`, `frameLength` and `bitrate` as C
`unsigned long`, `checkSum` and `idPar` as 8-bit unsigned, an unused
16-bit alignment slot (`z`), `synchEdgeTime` as an array of 4 and
`byteTime` as an array of 8 C `unsigned long`; on an ABI where
`unsigned long` is 32 bits (such as the native driver's 32-bit-long
ABIs) the member widths are exactly 32/32/32/32/8/8/16/4×32/8×32 bits,
matching the native driver structure bit for bit. -/
theorem lin_info_layout :
    LinMessageInfoFields.map Prod.fst
      = ["timestamp", "synchBreakLength", "frameLength", "bitrate",
         "checkSum", "idPar", "z", "synchEdgeTime", "byteTime"]
    ∧ LinMessageInfoFields.map Prod.snd
      = [.ulong, .ulong, .ulong, .ulong, .ubyte, .ubyte, .ushort,
         .arr .ulong 4, .arr .ulong 8]
    ∧ LinMessageInfoFields.map (fun p => CTy.width 32 p.2)
      = [32, 32, 32, 32, 8, 8, 16, 4 * 32, 8 * 32] := by
  refine ⟨rfl, rfl, by decide⟩
